import Mathlib

/-
Verification development for the Dataflow + Vertex AI text-generation pipeline
(`dataflow.go`).  The stateful enrichment stage `GenerateTextFn` is embedded
shallowly: the worker state becomes a Lean structure, the network is an
explicit oracle mapping the constructed HTTP request to a response, and the
JSON (un)marshalling performed by the Go standard library is modelled by the
parsed forms carried on the response body.  Log output is modelled as a list
of structured log events.
-/

set_option maxHeartbeats 1000000
set_option maxRecDepth 16384

namespace Dataflow

/-- Input prompt structure (`type Prompt struct` in dataflow.go). -/
structure Prompt where
  Prompt : String
  deriving DecidableEq, Repr

/-- Output result structure (`type GeminiResult struct`). -/
structure GeminiResult where
  Prompt : String
  GeneratedText : String
  deriving DecidableEq, Repr

/-- Cap for redundant errors per worker (`const maxRedundantErrors = 20`). -/
def maxRedundantErrors : Nat := 20

/-- Severity of a log line (Beam offers Infof, Warnf, Errorf). -/
inductive Severity where
  | info
  | warn
  | error
  deriving DecidableEq, Repr

/-- Structured model of every log line the stage can emit.  Each constructor
corresponds to one `beamlog.*f` call site in dataflow.go; string arguments
carry the data interpolated there (prompts truncated to 50 runes and error
text truncated to 100 runes, following the `%.50s` / `%.100s` format verbs). -/
inductive LogEvent where
  | setupMetadataFallback (metaErr : String)
  | setupIdentityError (e : String)
  | setupComplete (projectId region model identity : String)
  | skipIdentityErr (promptTrunc : String) (e : String)
  | predictError (identity promptTrunc : String) (count : Nat) (e : String)
  | capReachedWarn (cap : Nat) (identity : String) (errTrunc : String)
  | emptyPredictionsWarn (promptTrunc : String)
  | emptyContentWarn (promptTrunc : String)
  deriving DecidableEq, Repr

/-- Severity of each log call site in dataflow.go. -/
def LogEvent.severity : LogEvent → Severity
  | .setupMetadataFallback _ => .warn
  | .setupIdentityError _ => .error
  | .setupComplete _ _ _ _ => .info
  | .skipIdentityErr _ _ => .error
  | .predictError _ _ _ _ => .error
  | .capReachedWarn _ _ _ => .warn
  | .emptyPredictionsWarn _ => .warn
  | .emptyContentWarn _ => .warn

/-- Minimal JSON value model, used to state what Go's `encoding/json`
serializes for the Vertex request envelope. -/
inductive Json where
  | num (q : Rat)
  | str (s : String)
  | arr (elems : List Json)
  | obj (fields : List (String × Json))

/-- `type VertexInstance struct` : one instance holding the prompt. -/
structure VertexInstance where
  prompt : String
  deriving DecidableEq, Repr

/-- `type VertexParameters struct` : temperature, topK, and the optional
maxOutputTokens carrying Go's `omitempty` JSON tag (zero value omitted). -/
structure VertexParameters where
  temperature : Rat
  topK : Int
  maxOutputTokens : Int
  deriving DecidableEq, Repr

/-- `type VertexRequest struct`. -/
structure VertexRequest where
  instances : List VertexInstance
  parameters : VertexParameters
  deriving DecidableEq, Repr

/-- `type VertexPrediction struct` : the content of one candidate. -/
structure VertexPrediction where
  content : String
  deriving DecidableEq, Repr

/-- `type VertexResponse struct` : the predictions list. -/
structure VertexResponse where
  predictions : List VertexPrediction
  deriving DecidableEq, Repr

/-- Go's `json.Marshal` on a `VertexInstance` value. -/
def marshalVertexInstance (i : VertexInstance) : Json :=
  Json.obj [("prompt", Json.str i.prompt)]

/-- Go's `json.Marshal` on a `VertexParameters` value: fields in declaration
order; `maxOutputTokens` has the `omitempty` option, so the zero value 0 is
dropped from the serialized object. -/
def marshalVertexParameters (p : VertexParameters) : Json :=
  Json.obj
    ([("temperature", Json.num p.temperature), ("topK", Json.num (p.topK : Rat))] ++
      (if p.maxOutputTokens = 0 then []
       else [("maxOutputTokens", Json.num (p.maxOutputTokens : Rat))]))

/-- Go's `json.Marshal` on a `VertexRequest` value. -/
def marshalVertexRequest (r : VertexRequest) : Json :=
  Json.obj
    [("instances", Json.arr (r.instances.map marshalVertexInstance)),
     ("parameters", marshalVertexParameters r.parameters)]

/-- The model of the structured Google API error envelope that
`callVertexPredictAPI` tries to decode out of a non-200 response body. -/
structure GoogleApiError where
  code : Int
  message : String
  status : String
  deriving DecidableEq, Repr

/-- A response body, carrying the raw text together with the outcomes of the
two `json.Unmarshal` calls the Go code may apply to it (`none` models a
decode failure of that unmarshal). -/
structure RespBody where
  raw : String
  googleErr : Option GoogleApiError
  vertexResp : Option VertexResponse

/-- Outcome of the network interaction of one predict call: failure to build
the authenticated client, failure to send, failure to read the body, or an
HTTP response with a status code and body. -/
inductive NetResult where
  | clientError (e : String)
  | sendError (e : String)
  | readError (e : String)
  | response (statusCode : Nat) (body : RespBody)

/-- An outgoing HTTP request as `callVertexPredictAPI` constructs it. -/
structure HttpRequest where
  method : String
  url : String
  contentType : String
  body : Json

/-- Worker state of the stateful DoFn (`type GenerateTextFn struct`).
`errorCounts` models the Go map (a missing key reads as 0); `ErrorCounter`
models the cumulative value of the Beam metric counter; the mutex is not
represented because processing is modelled sequentially. -/
structure GenerateTextFn where
  ProjectID : String
  Region : String
  ModelName : String
  errorCounts : String → Nat
  ErrorCounter : Nat
  workerIdentity : String
  identityErr : Option String

/-- The Vertex AI predict endpoint URL built by interpolating region, project
and model into the fixed template (the `fmt.Sprintf` at line 241). -/
def vertexPredictURL (fn : GenerateTextFn) : String :=
  "https://" ++ fn.Region ++ "-aiplatform.googleapis.com/v1/projects/" ++
    fn.ProjectID ++ "/locations/" ++ fn.Region ++
    "/publishers/google/models/" ++ fn.ModelName ++ ":predict"

/-- The request body value constructed at lines 245-254: one instance holding
the prompt, temperature 0.8, topK 3, and MaxOutputTokens left at its zero
value (the commented-out assignment is absent). -/
def vertexReqBody (prompt : String) : VertexRequest :=
  { instances := [{ prompt := prompt }],
    parameters := { temperature := 0.8, topK := 3, maxOutputTokens := 0 } }

/-- The single POST request `callVertexPredictAPI` creates and sends:
method POST, the templated URL, Content-Type application/json, and the
JSON-marshalled request body. -/
def buildVertexPredictRequest (fn : GenerateTextFn) (prompt : String) : HttpRequest :=
  { method := "POST",
    url := vertexPredictURL fn,
    contentType := "application/json",
    body := marshalVertexRequest (vertexReqBody prompt) }

/-- Shallow embedding of `GenerateTextFn.callVertexPredictAPI`.  The network
is an oracle `env` from the constructed request to a `NetResult` (a client
construction failure is modelled as the oracle answering `clientError`).
Returns the Go function's `(string, error)` result as an `Except`, paired
with the log lines the function itself emits (the two Warnf calls on the
empty-predictions / empty-content paths). -/
def callVertexPredictAPI (fn : GenerateTextFn) (prompt : String)
    (env : HttpRequest → NetResult) : Except String String × List LogEvent :=
  match env (buildVertexPredictRequest fn prompt) with
  | NetResult.clientError e =>
      (Except.error ("failed to create google default client (ADC issue?): " ++ e), [])
  | NetResult.sendError e =>
      (Except.error ("failed to send request to vertex ai predict api: " ++ e), [])
  | NetResult.readError e =>
      (Except.error ("failed to read vertex response body: " ++ e), [])
  | NetResult.response statusCode body =>
      if statusCode ≠ 200 then
        match body.googleErr with
        | some ge =>
            if ge.message ≠ "" then
              (Except.error ("vertex ai predict api request failed with status " ++
                toString statusCode ++ " (" ++ ge.status ++ "): " ++ ge.message), [])
            else
              (Except.error ("vertex ai predict api request failed with status " ++
                toString statusCode ++ ": " ++ body.raw), [])
        | none =>
            (Except.error ("vertex ai predict api request failed with status " ++
              toString statusCode ++ ": " ++ body.raw), [])
      else
        match body.vertexResp with
        | none =>
            (Except.error ("failed to unmarshal vertex response (body: " ++
              body.raw.take 100 ++ "...)"), [])
        | some vr =>
            match vr.predictions with
            | [] =>
                (Except.ok "No prediction content from Vertex AI",
                 [LogEvent.emptyPredictionsWarn (prompt.take 50)])
            | pred :: _ =>
                if pred.content = "" then
                  (Except.ok "Empty prediction content from Vertex AI",
                   [LogEvent.emptyContentWarn (prompt.take 50)])
                else
                  (Except.ok pred.content, [])

/-- Shallow embedding of `GenerateTextFn.Setup`.  `meta` and `adc` are the
outcomes of the metadata-server strategy and of the ADC tokeninfo fallback.
Initializes the error map to empty and the counter, then resolves the worker
identity: metadata first, fallback second, no retries; only a failure of both
sets `identityErr`, wrapping the fallback's cause. -/
def Setup (fn : GenerateTextFn) (meta adc : Except String String) :
    GenerateTextFn × List LogEvent :=
  let fn1 : GenerateTextFn := { fn with errorCounts := fun _ => 0, ErrorCounter := 0 }
  match meta with
  | Except.ok email =>
      ({ fn1 with workerIdentity := email },
       [LogEvent.setupComplete fn.ProjectID fn.Region fn.ModelName email])
  | Except.error e1 =>
      match adc with
      | Except.ok email =>
          ({ fn1 with workerIdentity := email },
           [LogEvent.setupMetadataFallback e1,
            LogEvent.setupComplete fn.ProjectID fn.Region fn.ModelName email])
      | Except.error e2 =>
          ({ fn1 with identityErr := some ("failed to determine worker identity: " ++ e2) },
           [LogEvent.setupMetadataFallback e1,
            LogEvent.setupIdentityError ("failed to determine worker identity: " ++ e2)])

/-- Shallow embedding of `GenerateTextFn.ProcessElement`.  Returns the updated
worker state, the list of emitted `GeminiResult`s, and the log lines written
during the call (those of `callVertexPredictAPI` followed by the stage's own).
Mirrors dataflow.go lines 201-229: skip on identity error; on predict failure
increment the metric counter, then under the lock read the per-message count
and log or cap; on success emit exactly one result. -/
def ProcessElement (fn : GenerateTextFn) (p : Prompt)
    (env : HttpRequest → NetResult) :
    GenerateTextFn × List GeminiResult × List LogEvent :=
  match fn.identityErr with
  | some e => (fn, [], [LogEvent.skipIdentityErr (p.Prompt.take 50) e])
  | none =>
      let call := callVertexPredictAPI fn p.Prompt env
      match call.1 with
      | Except.error err =>
          let fn1 : GenerateTextFn := { fn with ErrorCounter := fn.ErrorCounter + 1 }
          let count := fn1.errorCounts err
          if count < maxRedundantErrors then
            ({ fn1 with errorCounts := fun s => if s = err then count + 1 else fn1.errorCounts s },
             [],
             call.2 ++ [LogEvent.predictError fn.workerIdentity (p.Prompt.take 50) (count + 1) err])
          else if count = maxRedundantErrors then
            ({ fn1 with errorCounts := fun s => if s = err then count + 1 else fn1.errorCounts s },
             [],
             call.2 ++ [LogEvent.capReachedWarn maxRedundantErrors fn.workerIdentity (err.take 100)])
          else
            (fn1, [], call.2)
      | Except.ok result =>
          (fn, [{ Prompt := p.Prompt, GeneratedText := result }], call.2)

/-- Sequential processing of a list of elements (the worker's slice of the
bundle), threading the state and concatenating emissions and logs. -/
def runAll (fn : GenerateTextFn) (p : Prompt)
    (envs : List (HttpRequest → NetResult)) :
    GenerateTextFn × List GeminiResult × List LogEvent :=
  match envs with
  | [] => (fn, [], [])
  | env :: rest =>
      let r := ProcessElement fn p env
      let rr := runAll r.1 p rest
      (rr.1, r.2.1 ++ rr.2.1, r.2.2 ++ rr.2.2)

/-- A concrete freshly-constructed worker state (all zero values), as the
pipeline assembly creates it before Setup runs. -/
def fnFresh : GenerateTextFn :=
  { ProjectID := "proj", Region := "us-central1", ModelName := "gemini-pro",
    errorCounts := fun _ => 0, ErrorCounter := 0,
    workerIdentity := "", identityErr := none }

/-- A concrete worker state with successfully resolved identity. -/
def fnOk : GenerateTextFn :=
  { fnFresh with workerIdentity := "sa@example.com" }

/-- A concrete worker state whose identity resolution failed. -/
def fnBad : GenerateTextFn :=
  { fnFresh with identityErr := some "failed to determine worker identity: no creds" }

/-- A network oracle that always fails at the transport layer. -/
def envSendFail : HttpRequest → NetResult :=
  fun _ => NetResult.sendError "connection refused"

/-- The error message produced under `envSendFail`. -/
def msgSendFail : String :=
  "failed to send request to vertex ai predict api: connection refused"

/-- A second transport failure with a distinct message. -/
def envSendFail2 : HttpRequest → NetResult :=
  fun _ => NetResult.sendError "timeout"

/-- The error message produced under `envSendFail2`. -/
def msgSendFail2 : String :=
  "failed to send request to vertex ai predict api: timeout"

/-- A 200 body with one prediction containing the text hello. -/
def bodyHello : RespBody :=
  { raw := "ok", googleErr := none,
    vertexResp := some { predictions := [{ content := "hello" }] } }

/-- An oracle answering 200 with `bodyHello`. -/
def envOk : HttpRequest → NetResult :=
  fun _ => NetResult.response 200 bodyHello

/-- A 200 body with an empty predictions list. -/
def bodyEmptyList : RespBody :=
  { raw := "ok", googleErr := none, vertexResp := some { predictions := [] } }

/-- An oracle answering 200 with `bodyEmptyList`. -/
def envEmptyList : HttpRequest → NetResult :=
  fun _ => NetResult.response 200 bodyEmptyList

/-- A 429 body carrying a structured quota-exceeded error envelope. -/
def bodyQuota : RespBody :=
  { raw := "quota body",
    googleErr := some { code := 429, message := "quota exceeded", status := "RESOURCE_EXHAUSTED" },
    vertexResp := none }

/-- An oracle answering 429 with `bodyQuota`. -/
def envQuota : HttpRequest → NetResult :=
  fun _ => NetResult.response 429 bodyQuota

/-- A worker whose count for `msgSendFail` is already past the cap. -/
def fnCapped : GenerateTextFn :=
  { fnOk with errorCounts := fun s => if s = msgSendFail then 21 else 0 }

/-- If the predict call fails, it emits no log lines of its own (both Warnf
call sites in `callVertexPredictAPI` are on success paths). -/
lemma callVertex_error_logs (fn : GenerateTextFn) (prompt : String)
    (env : HttpRequest → NetResult) (m : String)
    (h : (callVertexPredictAPI fn prompt env).1 = Except.error m) :
    (callVertexPredictAPI fn prompt env).2 = [] := by
  unfold callVertexPredictAPI at h ⊢
  cases henv : env (buildVertexPredictRequest fn prompt) <;> simp only [henv] at h ⊢
  case response statusCode body =>
    by_cases hstat : statusCode ≠ 200
    · rw [if_pos hstat] at h ⊢
      cases hge : body.googleErr <;> simp only [hge] at h ⊢
      rename_i ge
      by_cases hmsg : ge.message ≠ ""
      · rw [if_pos hmsg]
      · rw [if_neg hmsg]
    · rw [if_neg hstat] at h ⊢
      cases hvr : body.vertexResp <;> simp only [hvr] at h ⊢
      rename_i vr
      cases hp : vr.predictions <;> simp only [hp] at h ⊢
      · exact absurd h (by simp)
      · rename_i pred rest
        by_cases hc : pred.content = ""
        · rw [if_pos hc] at h
          exact absurd h (by simp)
        · rw [if_neg hc] at h
          exact absurd h (by simp)

/-- The result and logs of the predict call depend on the worker state only
through the three configuration fields used to build the request. -/
lemma callVertex_congr (fn fn' : GenerateTextFn) (prompt : String)
    (env : HttpRequest → NetResult)
    (h1 : fn'.ProjectID = fn.ProjectID) (h2 : fn'.Region = fn.Region)
    (h3 : fn'.ModelName = fn.ModelName) :
    callVertexPredictAPI fn' prompt env = callVertexPredictAPI fn prompt env := by
  unfold callVertexPredictAPI buildVertexPredictRequest vertexPredictURL
  rw [h1, h2, h3]

/-- Normal form of one failing `ProcessElement` call: counter incremented,
per-message count bumped while at most the cap, nothing emitted, and the log
line dictated by the pre-call count. -/
lemma processElement_fail (fn : GenerateTextFn) (p : Prompt)
    (env : HttpRequest → NetResult) (m : String)
    (hid : fn.identityErr = none)
    (hm : (callVertexPredictAPI fn p.Prompt env).1 = Except.error m) :
    ProcessElement fn p env =
      ((if fn.errorCounts m ≤ maxRedundantErrors then
          { fn with ErrorCounter := fn.ErrorCounter + 1,
                    errorCounts := fun s => if s = m then fn.errorCounts m + 1 else fn.errorCounts s }
        else { fn with ErrorCounter := fn.ErrorCounter + 1 }),
       [],
       (if fn.errorCounts m < maxRedundantErrors then
          [LogEvent.predictError fn.workerIdentity (p.Prompt.take 50) (fn.errorCounts m + 1) m]
        else if fn.errorCounts m = maxRedundantErrors then
          [LogEvent.capReachedWarn maxRedundantErrors fn.workerIdentity (m.take 100)]
        else [])) := by
  have hlogs := callVertex_error_logs fn p.Prompt env m hm
  unfold ProcessElement
  rw [hid]
  simp only [hm, hlogs, List.nil_append]
  rcases Nat.lt_trichotomy (fn.errorCounts m) maxRedundantErrors with hlt | heq | hgt
  · simp [hlt, Nat.le_of_lt hlt]
  · simp [heq]
  · have h1 : ¬ fn.errorCounts m < maxRedundantErrors := Nat.not_lt.mpr (Nat.le_of_lt hgt)
    have h2 : fn.errorCounts m ≠ maxRedundantErrors := Nat.ne_of_gt hgt
    have h3 : ¬ fn.errorCounts m ≤ maxRedundantErrors := Nat.not_le.mpr hgt
    simp [h1, h2, h3]

/-- `runAll` splits over list append: states thread through, emissions and
logs concatenate. -/
lemma runAll_append (fn : GenerateTextFn) (p : Prompt)
    (l1 l2 : List (HttpRequest → NetResult)) :
    runAll fn p (l1 ++ l2) =
      ((runAll (runAll fn p l1).1 p l2).1,
       (runAll fn p l1).2.1 ++ (runAll (runAll fn p l1).1 p l2).2.1,
       (runAll fn p l1).2.2 ++ (runAll (runAll fn p l1).1 p l2).2.2) := by
  induction l1 generalizing fn with
  | nil => simp [runAll]
  | cons env rest ih =>
      simp only [List.cons_append, runAll, List.append_eq]
      rw [ih]
      simp [List.append_assoc]

/-- State evolution across `n` repetitions of the same failing call: the
configuration fields, identity and identity error are untouched, the metric
counter grows by `n`, the count for the failing message climbs to at most
`cap + 1 = 21`, and counts for all other messages are untouched. -/
lemma runFail_state (p : Prompt) (env : HttpRequest → NetResult) (m : String)
    (n : Nat) :
    ∀ fn : GenerateTextFn, fn.identityErr = none →
      (callVertexPredictAPI fn p.Prompt env).1 = Except.error m →
      ((runAll fn p (List.replicate n env)).1.ProjectID = fn.ProjectID
       ∧ (runAll fn p (List.replicate n env)).1.Region = fn.Region
       ∧ (runAll fn p (List.replicate n env)).1.ModelName = fn.ModelName
       ∧ (runAll fn p (List.replicate n env)).1.workerIdentity = fn.workerIdentity
       ∧ (runAll fn p (List.replicate n env)).1.identityErr = none
       ∧ (runAll fn p (List.replicate n env)).1.ErrorCounter = fn.ErrorCounter + n
       ∧ (fn.errorCounts m ≤ 21 →
           (runAll fn p (List.replicate n env)).1.errorCounts m = min (fn.errorCounts m + n) 21)
       ∧ (∀ m', m' ≠ m → (runAll fn p (List.replicate n env)).1.errorCounts m' = fn.errorCounts m')) := by
  induction n with
  | zero =>
      intro fn hid hm
      simp [runAll, hid]
  | succ k ih =>
      intro fn hid hm
      rw [List.replicate_succ]
      have hstep := processElement_fail fn p env m hid hm
      simp only [runAll, hstep]
      set fn1 := (if fn.errorCounts m ≤ maxRedundantErrors then
          { fn with ErrorCounter := fn.ErrorCounter + 1,
                    errorCounts := fun s => if s = m then fn.errorCounts m + 1 else fn.errorCounts s }
        else { fn with ErrorCounter := fn.ErrorCounter + 1 }) with hfn1
      have hfields : fn1.ProjectID = fn.ProjectID ∧ fn1.Region = fn.Region
          ∧ fn1.ModelName = fn.ModelName ∧ fn1.workerIdentity = fn.workerIdentity
          ∧ fn1.identityErr = none ∧ fn1.ErrorCounter = fn.ErrorCounter + 1 := by
        rw [hfn1]
        split <;> simp [hid]
      have hm1 : (callVertexPredictAPI fn1 p.Prompt env).1 = Except.error m := by
        rw [callVertex_congr fn fn1 p.Prompt env hfields.1 hfields.2.1 hfields.2.2.1]
        exact hm
      have hcount1 : fn1.errorCounts m =
          if fn.errorCounts m ≤ maxRedundantErrors then fn.errorCounts m + 1 else fn.errorCounts m := by
        rw [hfn1]
        split <;> simp
      have hother1 : ∀ m', m' ≠ m → fn1.errorCounts m' = fn.errorCounts m' := by
        intro m' hne
        rw [hfn1]
        split <;> simp [hne]
      obtain ⟨i1, i2, i3, i4, i5, i6, i7, i8⟩ := ih fn1 hfields.2.2.2.2.1 hm1
      refine ⟨by rw [i1, hfields.1], by rw [i2, hfields.2.1], by rw [i3, hfields.2.2.1],
        by rw [i4, hfields.2.2.2.1], i5, by rw [i6, hfields.2.2.2.2.2]; omega, ?_, ?_⟩
      · intro hle
        rcases le_or_lt (fn.errorCounts m) maxRedundantErrors with hle20 | hgt20
        · have : fn1.errorCounts m = fn.errorCounts m + 1 := by rw [hcount1, if_pos hle20]
          simp only [maxRedundantErrors] at hle20
          rw [i7 (by omega), this]
          omega
        · have hnle : ¬ fn.errorCounts m ≤ maxRedundantErrors := Nat.not_le.mpr hgt20
          have : fn1.errorCounts m = fn.errorCounts m := by rw [hcount1, if_neg hnle]
          simp only [maxRedundantErrors] at hgt20
          rw [i7 (by omega), this]
          omega
      · intro m' hne
        rw [i8 m' hne, hother1 m' hne]

/-- Claim C9: for every prompt the prediction call sends a single POST with
Content-Type application/json to the URL obtained by interpolating region,
project and model into the fixed template, whose JSON body contains exactly
one instance holding the prompt and the fixed parameters temperature 0.8 and
topK 3, with maxOutputTokens absent from the serialized body. -/
theorem predict_request_shape (fn : GenerateTextFn) (prompt : String) :
    buildVertexPredictRequest fn prompt =
      { method := "POST",
        url := "https://" ++ fn.Region ++ "-aiplatform.googleapis.com/v1/projects/" ++
          fn.ProjectID ++ "/locations/" ++ fn.Region ++
          "/publishers/google/models/" ++ fn.ModelName ++ ":predict",
        contentType := "application/json",
        body := Json.obj
          [("instances", Json.arr [Json.obj [("prompt", Json.str prompt)]]),
           ("parameters", Json.obj
             [("temperature", Json.num 0.8), ("topK", Json.num 3)])] } := rfl

/-- Claim C2: if identity resolution failed during Setup, every subsequent
ProcessElement call on that worker emits zero records, leaves the whole
state (prediction-error counter and errorCounts map included) unchanged, and
its only effect is one skip log line for the dropped record; moreover its
outcome is independent of the network oracle, i.e. the prediction client is
never invoked. -/
theorem identity_failed_skip (fn : GenerateTextFn) (p : Prompt)
    (env : HttpRequest → NetResult) (e : String)
    (h : fn.identityErr = some e) :
    ProcessElement fn p env = (fn, [], [LogEvent.skipIdentityErr (p.Prompt.take 50) e])
    ∧ (∀ env' : HttpRequest → NetResult, ProcessElement fn p env' = ProcessElement fn p env) := by
  constructor
  · unfold ProcessElement
    rw [h]
  · intro env'
    unfold ProcessElement
    rw [h]

/-- Witness for C2 at a concrete identity-failed worker. -/
theorem identity_failed_skip_witness :
    ProcessElement fnBad { Prompt := "make a label" } envOk =
      (fnBad, [],
       [LogEvent.skipIdentityErr "make a label" "failed to determine worker identity: no creds"]) :=
  (identity_failed_skip fnBad { Prompt := "make a label" } envOk
    "failed to determine worker identity: no creds" rfl).1

/-- Claim C3: with resolved identity, a successful prediction returning
content C makes ProcessElement emit exactly one OutputRecord carrying the
prompt verbatim and C; a failed prediction emits nothing. -/
theorem prompt_roundtrip (fn : GenerateTextFn) (p : Prompt)
    (env : HttpRequest → NetResult) (hid : fn.identityErr = none) :
    (∀ C, (callVertexPredictAPI fn p.Prompt env).1 = Except.ok C →
      (ProcessElement fn p env).2.1 = [{ Prompt := p.Prompt, GeneratedText := C }])
    ∧ (∀ e, (callVertexPredictAPI fn p.Prompt env).1 = Except.error e →
      (ProcessElement fn p env).2.1 = []) := by
  constructor
  · intro C hC
    unfold ProcessElement
    rw [hid]
    simp only [hC]
  · intro e he
    rw [processElement_fail fn p env e hid he]

/-- Witness for C3: a stub client returning hello round-trips the prompt. -/
theorem prompt_roundtrip_witness :
    (ProcessElement fnOk { Prompt := "make a label" } envOk).2.1 =
      [{ Prompt := "make a label", GeneratedText := "hello" }] :=
  (prompt_roundtrip fnOk { Prompt := "make a label" } envOk rfl).1 "hello" rfl

/-- Claim C10: ProcessElement preserves ProjectID, Region, ModelName,
workerIdentity and identityErr unconditionally; on a successfully processed
record, and on an identity-failed skip, the whole state (errorCounts
included) is unchanged. -/
theorem process_element_frame (fn : GenerateTextFn) (p : Prompt)
    (env : HttpRequest → NetResult) :
    ((ProcessElement fn p env).1.ProjectID = fn.ProjectID
     ∧ (ProcessElement fn p env).1.Region = fn.Region
     ∧ (ProcessElement fn p env).1.ModelName = fn.ModelName
     ∧ (ProcessElement fn p env).1.workerIdentity = fn.workerIdentity
     ∧ (ProcessElement fn p env).1.identityErr = fn.identityErr)
    ∧ (∀ C, fn.identityErr = none →
        (callVertexPredictAPI fn p.Prompt env).1 = Except.ok C →
        (ProcessElement fn p env).1 = fn)
    ∧ (∀ e, fn.identityErr = some e → (ProcessElement fn p env).1 = fn) := by
  refine ⟨?_, ?_, ?_⟩
  · unfold ProcessElement
    cases hi : fn.identityErr with
    | some e => exact ⟨rfl, rfl, rfl, rfl, hi⟩
    | none =>
        cases hc : (callVertexPredictAPI fn p.Prompt env).1 with
        | ok r => simp [hc, hi]
        | error err =>
            simp only [hc]
            split_ifs <;> simp [hi]
  · intro C hid hC
    unfold ProcessElement
    rw [hid]
    simp only [hC]
  · intro e hi
    unfold ProcessElement
    rw [hi]

/-- Witness for C10 at a concrete success and a concrete skip. -/
theorem process_element_frame_witness :
    (ProcessElement fnOk { Prompt := "x" } envOk).1 = fnOk
    ∧ (ProcessElement fnBad { Prompt := "x" } envOk).1 = fnBad := by
  constructor
  · exact (process_element_frame fnOk { Prompt := "x" } envOk).2.1 "hello" rfl rfl
  · exact (process_element_frame fnBad { Prompt := "x" } envOk).2.2
      "failed to determine worker identity: no creds" rfl

/-- Claim C4: an HTTP 200 with an empty predictions list yields the sentinel
string "No prediction content from Vertex AI" as a success, so the stage
emits an OutputRecord with that sentinel and does not increment the error
counter; a non-empty list whose first prediction has empty content yields the
sentinel "Empty prediction content from Vertex AI", also as a success; and
otherwise the first prediction's content is returned verbatim. -/
theorem empty_predictions_soft_success (fn : GenerateTextFn) (p : Prompt)
    (env : HttpRequest → NetResult) (body : RespBody)
    (henv : env (buildVertexPredictRequest fn p.Prompt) = NetResult.response 200 body)
    (hid : fn.identityErr = none) :
    (body.vertexResp = some { predictions := [] } →
      (callVertexPredictAPI fn p.Prompt env).1 =
        Except.ok "No prediction content from Vertex AI"
      ∧ (ProcessElement fn p env).2.1 =
          [{ Prompt := p.Prompt, GeneratedText := "No prediction content from Vertex AI" }]
      ∧ (ProcessElement fn p env).1.ErrorCounter = fn.ErrorCounter)
    ∧ (∀ rest, body.vertexResp = some { predictions := { content := "" } :: rest } →
        (callVertexPredictAPI fn p.Prompt env).1 =
          Except.ok "Empty prediction content from Vertex AI")
    ∧ (∀ c rest, body.vertexResp = some { predictions := { content := c } :: rest } →
        c ≠ "" → (callVertexPredictAPI fn p.Prompt env).1 = Except.ok c) := by
  refine ⟨?_, ?_, ?_⟩
  · intro hv
    have hcall : (callVertexPredictAPI fn p.Prompt env).1 =
        Except.ok "No prediction content from Vertex AI" := by
      unfold callVertexPredictAPI
      rw [henv]
      simp [hv]
    refine ⟨hcall, ?_, ?_⟩
    · unfold ProcessElement
      rw [hid]
      simp only [hcall]
    · unfold ProcessElement
      rw [hid]
      simp only [hcall]
  · intro rest hv
    unfold callVertexPredictAPI
    rw [henv]
    simp [hv]
  · intro c rest hv hc
    unfold callVertexPredictAPI
    rw [henv]
    simp [hv, hc]

/-- Witness for C4: the concrete empty-predictions oracle produces the
sentinel emission. -/
theorem empty_predictions_soft_success_witness :
    (ProcessElement fnOk { Prompt := "x" } envEmptyList).2.1 =
      [{ Prompt := "x", GeneratedText := "No prediction content from Vertex AI" }] :=
  ((empty_predictions_soft_success fnOk { Prompt := "x" } envEmptyList
      bodyEmptyList rfl rfl).1 rfl).2.1

/-- Claim C5: a non-200 response whose body parses as the structured Google
API error envelope with non-empty message surfaces a failure whose message
contains that message (it is the final segment); if the body does not parse
as the envelope, or the message field is empty, the failure carries the raw
status code and body text. -/
theorem http_error_message_surfaced (fn : GenerateTextFn) (prompt : String)
    (env : HttpRequest → NetResult) (status : Nat) (body : RespBody)
    (henv : env (buildVertexPredictRequest fn prompt) = NetResult.response status body)
    (hs : status ≠ 200) :
    (∀ ge : GoogleApiError, body.googleErr = some ge → ge.message ≠ "" →
      (callVertexPredictAPI fn prompt env).1 =
        Except.error ("vertex ai predict api request failed with status " ++
          toString status ++ " (" ++ ge.status ++ "): " ++ ge.message)
      ∧ ∃ pre : String,
          (callVertexPredictAPI fn prompt env).1 = Except.error (pre ++ ge.message))
    ∧ (body.googleErr = none →
        (callVertexPredictAPI fn prompt env).1 =
          Except.error ("vertex ai predict api request failed with status " ++
            toString status ++ ": " ++ body.raw))
    ∧ (∀ ge : GoogleApiError, body.googleErr = some ge → ge.message = "" →
        (callVertexPredictAPI fn prompt env).1 =
          Except.error ("vertex ai predict api request failed with status " ++
            toString status ++ ": " ++ body.raw)) := by
  refine ⟨?_, ?_, ?_⟩
  · intro ge hge hne
    have hcall : (callVertexPredictAPI fn prompt env).1 =
        Except.error ("vertex ai predict api request failed with status " ++
          toString status ++ " (" ++ ge.status ++ "): " ++ ge.message) := by
      unfold callVertexPredictAPI
      rw [henv]
      simp [hs, hge, hne]
    exact ⟨hcall, ⟨_, hcall⟩⟩
  · intro hge
    unfold callVertexPredictAPI
    rw [henv]
    simp [hs, hge]
  · intro ge hge hmsg
    unfold callVertexPredictAPI
    rw [henv]
    simp [hs, hge, hmsg]

/-- Witness for C5: the concrete 429 quota-exceeded oracle surfaces
"quota exceeded" at the end of the failure message. -/
theorem http_error_message_surfaced_witness :
    ∃ pre : String,
      (callVertexPredictAPI fnOk "x" envQuota).1 = Except.error (pre ++ "quota exceeded") :=
  ((http_error_message_surfaced fnOk "x" envQuota 429 bodyQuota rfl (by decide)).1
    { code := 429, message := "quota exceeded", status := "RESOURCE_EXHAUSTED" }
    rfl (by decide)).2

/-- Claim C7: Setup always completes (it is a total function of the two
strategy outcomes), initializes errorCounts to the empty map, and leaves
exactly one of workerIdentity / identityErr set on a fresh worker: the first
successful strategy's email (metadata endpoint first, token-introspection
fallback second, each tried once), or, only when both fail, an identityErr
wrapping the fallback's cause. -/
theorem setup_identity_resolution (fn : GenerateTextFn)
    (meta adc : Except String String)
    (hW : fn.workerIdentity = "") (hE : fn.identityErr = none) :
    ((Setup fn meta adc).1.errorCounts = fun _ => 0)
    ∧ (Setup fn meta adc).1.ErrorCounter = 0
    ∧ (∀ email, meta = Except.ok email →
        (Setup fn meta adc).1.workerIdentity = email
        ∧ (Setup fn meta adc).1.identityErr = none)
    ∧ (∀ e1 email, meta = Except.error e1 → adc = Except.ok email →
        (Setup fn meta adc).1.workerIdentity = email
        ∧ (Setup fn meta adc).1.identityErr = none)
    ∧ (∀ e1 e2, meta = Except.error e1 → adc = Except.error e2 →
        (Setup fn meta adc).1.workerIdentity = ""
        ∧ (Setup fn meta adc).1.identityErr =
            some ("failed to determine worker identity: " ++ e2))
    ∧ ¬((Setup fn meta adc).1.identityErr ≠ none
        ∧ (Setup fn meta adc).1.workerIdentity ≠ "") := by
  cases meta with
  | ok email => simp [Setup, hE]
  | error e1 =>
      cases adc with
      | ok email => simp [Setup, hE]
      | error e2 => simp [Setup, hW]

/-- Witness for C7: a fresh worker with both strategies failing ends up with
the wrapped identity error and empty identity. -/
theorem setup_identity_resolution_witness :
    (Setup fnFresh (Except.error "metadata unreachable") (Except.error "no creds")).1.workerIdentity = ""
    ∧ (Setup fnFresh (Except.error "metadata unreachable") (Except.error "no creds")).1.identityErr =
        some "failed to determine worker identity: no creds" :=
  (setup_identity_resolution fnFresh (Except.error "metadata unreachable")
    (Except.error "no creds") rfl rfl).2.2.2.2.1 "metadata unreachable" "no creds" rfl rfl

/-- Claim C6: distinct error messages are counted and capped independently:
a failure carrying message m2 leaves m1's stored count unchanged; the log
output of a subsequent m1 failure is the same as it would have been before
the m2 failure; and m1 having reached the cap never suppresses logging of an
m2 failure whose own count is below the cap. -/
theorem per_message_cap_independence (fn : GenerateTextFn) (p : Prompt)
    (env1 env2 : HttpRequest → NetResult) (m1 m2 : String)
    (hne : m1 ≠ m2) (hid : fn.identityErr = none)
    (h1 : (callVertexPredictAPI fn p.Prompt env1).1 = Except.error m1)
    (h2 : (callVertexPredictAPI fn p.Prompt env2).1 = Except.error m2) :
    (ProcessElement fn p env2).1.errorCounts m1 = fn.errorCounts m1
    ∧ (ProcessElement (ProcessElement fn p env2).1 p env1).2.2 =
        (ProcessElement fn p env1).2.2
    ∧ (21 ≤ fn.errorCounts m1 → fn.errorCounts m2 < 20 →
        (ProcessElement fn p env2).2.2 =
          [LogEvent.predictError fn.workerIdentity (p.Prompt.take 50)
            (fn.errorCounts m2 + 1) m2]) := by
  have hstep2 := processElement_fail fn p env2 m2 hid h2
  have hfacts : (ProcessElement fn p env2).1.ProjectID = fn.ProjectID
      ∧ (ProcessElement fn p env2).1.Region = fn.Region
      ∧ (ProcessElement fn p env2).1.ModelName = fn.ModelName
      ∧ (ProcessElement fn p env2).1.workerIdentity = fn.workerIdentity
      ∧ (ProcessElement fn p env2).1.identityErr = none
      ∧ (ProcessElement fn p env2).1.errorCounts m1 = fn.errorCounts m1 := by
    rw [hstep2]
    split <;> simp [hid, hne]
  refine ⟨hfacts.2.2.2.2.2, ?_, ?_⟩
  · have h1' : (callVertexPredictAPI (ProcessElement fn p env2).1 p.Prompt env1).1 =
        Except.error m1 := by
      rw [callVertex_congr fn (ProcessElement fn p env2).1 p.Prompt env1
        hfacts.1 hfacts.2.1 hfacts.2.2.1]
      exact h1
    rw [processElement_fail (ProcessElement fn p env2).1 p env1 m1 hfacts.2.2.2.2.1 h1',
        processElement_fail fn p env1 m1 hid h1]
    simp only [hfacts.2.2.2.2.2, hfacts.2.2.2.1]
  · intro _ hlt2
    rw [hstep2]
    have hpos : fn.errorCounts m2 < maxRedundantErrors := hlt2
    simp only [if_pos hpos]

/-- Witness for C6: a worker capped on the transport-failure message still
logs the first occurrence of a distinct timeout message. -/
theorem per_message_cap_independence_witness :
    (ProcessElement fnCapped { Prompt := "x" } envSendFail2).2.2 =
      [LogEvent.predictError "sa@example.com" "x" 1 msgSendFail2] := by
  have h := per_message_cap_independence fnCapped { Prompt := "x" } envSendFail envSendFail2
    msgSendFail msgSendFail2 (by decide) rfl rfl rfl
  exact h.2.2 (by decide) (by decide)

/-- Counterexample to C8 as stated: the stored count does not keep
incrementing after the cap is reached.  From a fresh worker, 21 identical
failures drive the count for the message to 21 (= cap + 1), and the 22nd
identical failure leaves it at 21 instead of incrementing it to 22. -/
theorem errorCounts_stops_at_cap :
    (runAll fnOk { Prompt := "x" } (List.replicate 21 envSendFail)).1.errorCounts msgSendFail = 21
    ∧ (runAll fnOk { Prompt := "x" } (List.replicate 22 envSendFail)).1.errorCounts msgSendFail = 21 := by
  have h21 := runFail_state { Prompt := "x" } envSendFail msgSendFail 21 fnOk rfl rfl
  have h22 := runFail_state { Prompt := "x" } envSendFail msgSendFail 22 fnOk rfl rfl
  constructor
  · rw [h21.2.2.2.2.2.2.1 (by decide)]
    decide
  · rw [h22.2.2.2.2.2.2.1 (by decide)]
    decide

/-- Claim C8 (amended): per distinct message the stored count in errorCounts
is non-decreasing across calls and equals min(initial + failures, 21): it
increments by one per failure with that message until it reaches cap + 1 =
21, after which it stays at 21 and logging stops (a failure at stored count
21 writes no log line at all), while the Beam metric counter still
increments on every failure. -/
theorem errorCounts_monotone_capped (fn : GenerateTextFn) (p : Prompt)
    (env : HttpRequest → NetResult) (m : String) (n : Nat)
    (hid : fn.identityErr = none)
    (hm : (callVertexPredictAPI fn p.Prompt env).1 = Except.error m)
    (hc : fn.errorCounts m ≤ 21) :
    fn.errorCounts m ≤ (ProcessElement fn p env).1.errorCounts m
    ∧ (runAll fn p (List.replicate n env)).1.errorCounts m = min (fn.errorCounts m + n) 21
    ∧ (runAll fn p (List.replicate n env)).1.ErrorCounter = fn.ErrorCounter + n
    ∧ (fn.errorCounts m = 21 →
        (ProcessElement fn p env).1.errorCounts m = 21
        ∧ (ProcessElement fn p env).2.2 = []) := by
  have hstate := runFail_state p env m n fn hid hm
  have hstep := processElement_fail fn p env m hid hm
  refine ⟨?_, hstate.2.2.2.2.2.2.1 hc, hstate.2.2.2.2.2.1, ?_⟩
  · rw [hstep]
    split <;> simp
  · intro h21
    have hn1 : ¬ fn.errorCounts m < maxRedundantErrors := by
      simp only [maxRedundantErrors]; omega
    have hn2 : fn.errorCounts m ≠ maxRedundantErrors := by
      simp only [maxRedundantErrors]; omega
    have hn3 : ¬ fn.errorCounts m ≤ maxRedundantErrors := by
      simp only [maxRedundantErrors]; omega
    rw [hstep]
    rw [if_neg hn3, if_neg hn1, if_neg hn2]
    exact ⟨h21, rfl⟩

/-- Witness for the amended C8: a capped worker keeps the stored count at 21
and logs nothing on a further identical failure; a fresh worker's count after
two failures is min(0 + 2, 21). -/
theorem errorCounts_monotone_capped_witness :
    ((ProcessElement fnCapped { Prompt := "x" } envSendFail).1.errorCounts msgSendFail = 21
     ∧ (ProcessElement fnCapped { Prompt := "x" } envSendFail).2.2 = [])
    ∧ (runAll fnOk { Prompt := "x" } (List.replicate 2 envSendFail)).1.errorCounts msgSendFail =
        min (fnOk.errorCounts msgSendFail + 2) 21 := by
  constructor
  · exact (errorCounts_monotone_capped fnCapped { Prompt := "x" } envSendFail msgSendFail 0
      rfl rfl (by decide)).2.2.2 (by decide)
  · exact (errorCounts_monotone_capped fnOk { Prompt := "x" } envSendFail msgSendFail 2
      rfl rfl (by decide)).2.1

/-- Closed form of the log output of `n` identical failures from a fresh
count: one error line with the new count for each of the first 20, then the
single cap-reached warning on the 21st, then nothing. -/
lemma runFail_logs (fn : GenerateTextFn) (p : Prompt)
    (env : HttpRequest → NetResult) (m : String)
    (hid : fn.identityErr = none)
    (hm : (callVertexPredictAPI fn p.Prompt env).1 = Except.error m)
    (h0 : fn.errorCounts m = 0) (n : Nat) :
    (runAll fn p (List.replicate n env)).2.2 =
      (List.range (min n 20)).map
        (fun i => LogEvent.predictError fn.workerIdentity (p.Prompt.take 50) (i + 1) m)
      ++ (if 21 ≤ n then
            [LogEvent.capReachedWarn maxRedundantErrors fn.workerIdentity (m.take 100)]
          else []) := by
  induction n with
  | zero => simp [runAll]
  | succ k ih =>
      rw [List.replicate_succ', runAll_append, ih]
      obtain ⟨s1, s2, s3, s4, s5, s6, s7, s8⟩ := runFail_state p env m k fn hid hm
      have hcount : (runAll fn p (List.replicate k env)).1.errorCounts m = min k 21 := by
        rw [s7 (by omega), h0]
        omega
      have hm' : (callVertexPredictAPI (runAll fn p (List.replicate k env)).1 p.Prompt env).1 =
          Except.error m := by
        rw [callVertex_congr fn (runAll fn p (List.replicate k env)).1 p.Prompt env s1 s2 s3]
        exact hm
      have hone : (runAll (runAll fn p (List.replicate k env)).1 p [env]).2.2 =
          (ProcessElement (runAll fn p (List.replicate k env)).1 p env).2.2 := by
        simp [runAll]
      rw [hone, processElement_fail (runAll fn p (List.replicate k env)).1 p env m s5 hm']
      simp only [s4]
      by_cases hk1 : k < 20
      · have e1 : min k 21 < maxRedundantErrors := by
          simp only [maxRedundantErrors]; omega
        rw [hcount, if_pos e1]
        have e2 : min k 20 = k := by omega
        have e3 : min (k + 1) 20 = k + 1 := by omega
        have e4 : ¬ 21 ≤ k := by omega
        have e5 : ¬ 21 ≤ k + 1 := by omega
        have e6 : min k 21 = k := by omega
        rw [e2, e3, if_neg e4, if_neg e5, e6, List.range_succ]
        simp
      · by_cases hk2 : k = 20
        · subst hk2
          have e1 : ¬ min 20 21 < maxRedundantErrors := by decide
          have e2 : min 20 21 = maxRedundantErrors := by decide
          rw [hcount, if_neg e1, if_pos e2]
          have e3 : min 20 20 = 20 := by decide
          have e4 : min (20 + 1) 20 = 20 := by decide
          have e5 : ¬ 21 ≤ 20 := by decide
          rw [e3, e4, if_neg e5]
          simp
        · have hk3 : 21 ≤ k := by omega
          have e1 : ¬ min k 21 < maxRedundantErrors := by
            simp only [maxRedundantErrors]; omega
          have e2 : ¬ min k 21 = maxRedundantErrors := by
            simp only [maxRedundantErrors]; omega
          rw [hcount, if_neg e1, if_neg e2]
          have e3 : min k 20 = 20 := by omega
          have e4 : min (k + 1) 20 = 20 := by omega
          have e5 : 21 ≤ k := hk3
          have e6 : 21 ≤ k + 1 := by omega
          rw [e3, e4, if_pos e5, if_pos e6]
          simp

/-- Claim C1: for a worker with a fresh count for message m, a sequence of n
ProcessElement failures all carrying m writes exactly min(n, 21) log lines
for m: min(n, 20) error-severity lines each reporting the new per-message
count, plus exactly one cap-reached warning line emitted on the 21st
failure, and no log output for any failure after that. -/
theorem redundant_error_logging_cap (fn : GenerateTextFn) (p : Prompt)
    (env : HttpRequest → NetResult) (m : String) (n : Nat)
    (hid : fn.identityErr = none)
    (hm : (callVertexPredictAPI fn p.Prompt env).1 = Except.error m)
    (h0 : fn.errorCounts m = 0) :
    (runAll fn p (List.replicate n env)).2.2 =
      (List.range (min n 20)).map
        (fun i => LogEvent.predictError fn.workerIdentity (p.Prompt.take 50) (i + 1) m)
      ++ (if 21 ≤ n then
            [LogEvent.capReachedWarn maxRedundantErrors fn.workerIdentity (m.take 100)]
          else [])
    ∧ ((runAll fn p (List.replicate n env)).2.2).length = min n 21
    ∧ (((runAll fn p (List.replicate n env)).2.2).filter
        (fun l => decide (l.severity = Severity.error))).length = min n 20
    ∧ (((runAll fn p (List.replicate n env)).2.2).filter
        (fun l => decide (l.severity = Severity.warn))).length =
          if 21 ≤ n then 1 else 0 := by
  have hlogs := runFail_logs fn p env m hid hm h0 n
  refine ⟨hlogs, ?_, ?_, ?_⟩
  · rw [hlogs]
    by_cases hn : 21 ≤ n
    · rw [if_pos hn]
      simp
      omega
    · rw [if_neg hn]
      simp
      omega
  · rw [hlogs, List.filter_append]
    have hall : List.filter (fun l => decide (l.severity = Severity.error))
        ((List.range (min n 20)).map
          (fun i => LogEvent.predictError fn.workerIdentity (p.Prompt.take 50) (i + 1) m)) =
        (List.range (min n 20)).map
          (fun i => LogEvent.predictError fn.workerIdentity (p.Prompt.take 50) (i + 1) m) := by
      apply List.filter_eq_self.mpr
      intro l hl
      obtain ⟨i, hi, rfl⟩ := List.mem_map.mp hl
      simp [LogEvent.severity]
    rw [hall]
    by_cases hn : 21 ≤ n
    · rw [if_pos hn]
      simp [LogEvent.severity]
    · rw [if_neg hn]
      simp
  · rw [hlogs, List.filter_append]
    have hnone : List.filter (fun l => decide (l.severity = Severity.warn))
        ((List.range (min n 20)).map
          (fun i => LogEvent.predictError fn.workerIdentity (p.Prompt.take 50) (i + 1) m)) = [] := by
      rw [List.filter_eq_nil_iff]
      intro l hl
      obtain ⟨i, hi, rfl⟩ := List.mem_map.mp hl
      simp [LogEvent.severity]
    rw [hnone]
    by_cases hn : 21 ≤ n
    · rw [if_pos hn]
      simp [LogEvent.severity, hn]
    · rw [if_neg hn]
      simp [hn]

/-- Witness for C1: 23 identical transport failures on a fresh worker yield
exactly min(23, 21) = 21 log lines. -/
theorem redundant_error_logging_cap_witness :
    ((runAll fnOk { Prompt := "x" } (List.replicate 23 envSendFail)).2.2).length = min 23 21 :=
  (redundant_error_logging_cap fnOk { Prompt := "x" } envSendFail msgSendFail 23
    rfl rfl rfl).2.1

end Dataflow
